import Mathlib

/-!
Verification of the AgenticSeek HTTP test client (`tutorial_poc.py`).

The client is single-threaded, synchronous Python code built on the
`requests` library.  We give it a shallow embedding:

* JSON documents are the inductive type `Json`.
* The network (the `requests.Session`) is an explicit parameter of type
  `Transport := HttpRequest → TransportResult`: a simulated server/network
  that, for each request, either delivers an `HttpResponse` or fails with
  a transport-level error (`requests.exceptions.RequestException` that is
  not an `HTTPError`: connection refused, DNS failure, timeout, ...).
* Side effects (HTTP calls made, `time.sleep`, file writes, `print`) are
  recorded in an explicit event trace, so every operation returns its
  result paired with a `List Event`.
* `response.raise_for_status()` raises `requests.exceptions.HTTPError`
  exactly for status codes in `[400, 600)` (4xx "Client Error" /
  5xx "Server Error"); other status codes do not raise.
* `response.json()` on a body that is not valid JSON raises
  `requests.exceptions.JSONDecodeError`, which (requests ≥ 2.27) is a
  subclass of `RequestException` and is therefore caught by the generic
  handler in `_make_request`.
-/

/-- A JSON document (the values `response.json()` can produce).  Objects are
modelled as association lists in document order. -/
inductive Json where
  | null : Json
  | bool : Bool → Json
  | num : Int → Json
  | str : String → Json
  | arr : List Json → Json
  | obj : List (String × Json) → Json

/-- Python truthiness (`bool(x)`) of a JSON value: `None`, `False`, `0`,
`""`, `[]` and `{}` (written textually) are falsy, everything else truthy. -/
def Json.truthy : Json → Bool
  | Json.null => false
  | Json.bool b => b
  | Json.num n => n != 0
  | Json.str s => s != ""
  | Json.arr xs => !xs.isEmpty
  | Json.obj kvs => !kvs.isEmpty

/-- Whether a JSON value is an object (a Python `dict`). -/
def Json.isObj : Json → Bool
  | Json.obj _ => true
  | _ => false

/-- Python dict lookup `d.get(key, default)` on the association list of a
JSON object: the value of the first binding of `key`, or `default` when
the key is absent. -/
def dictGet (kvs : List (String × Json)) (key : String) (default : Json) : Json :=
  match kvs.find? (fun p => p.1 == key) with
  | some p => p.2
  | none => default

/-- Whether a JSON value is an object containing the given key. -/
def Json.hasKey : Json → String → Bool
  | Json.obj kvs, k => (kvs.find? (fun p => p.1 == k)).isSome
  | _, _ => false

/-- The value at a key of a JSON object, if any. -/
def Json.getKey : Json → String → Option Json
  | Json.obj kvs, k => (kvs.find? (fun p => p.1 == k)).map (fun p => p.2)
  | _, _ => none

/-- An HTTP request as issued by `requests.Session.request`: method, full
URL, optional JSON body (the `json=` kwarg) and optional timeout in seconds
(the `timeout=` kwarg). -/
structure HttpRequest where
  method : String
  url : String
  jsonBody : Option Json
  timeout : Option Nat

/-- A delivered HTTP response: status code, reason phrase, raw body bytes
(`response.content`) and the result of `response.json()` (`none` when the
body is not valid JSON, in which case `.json()` raises `JSONDecodeError`). -/
structure HttpResponse where
  status_code : Nat
  reason : String
  content : List Nat
  jsonResult : Option Json

/-- Outcome of handing a request to the network: either a response was
delivered, or a transport-level `requests.exceptions.RequestException`
(connection refused, DNS failure, timeout, ...) was raised with the given
message (`str(e)`). -/
inductive TransportResult where
  | response : HttpResponse → TransportResult
  | connectionError : String → TransportResult

/-- The simulated network: what `self.session` does with each request. -/
abbrev Transport := HttpRequest → TransportResult

/-- Observable side effects of a client operation, in order of occurrence. -/
inductive Event where
  | httpCall : HttpRequest → Event
  | sleepFor : ℚ → Event
  | wroteFile : String → List Nat → Event
  | printed : String → Event
  | printedJson : String → Json → Event

/-- Client state `AgenticSeekClient`: holds the normalized base URL.  The
`requests.Session` field of the Python class is modelled as the explicit
`Transport` argument threaded through each operation. -/
structure AgenticSeekClient where
  base_url : String

/-- Python `base_url.rstrip('/')`: remove every trailing `'/'` character. -/
def rstrip_slash (s : String) : String :=
  String.mk ((s.data.reverse.dropWhile (fun c => c == '/')).reverse)

/-- Constructor `AgenticSeekClient.__init__`: store the base URL with trailing slashes
stripped. -/
def AgenticSeekClient.make (base_url : String) : AgenticSeekClient :=
  { base_url := rstrip_slash base_url }

/-- The request `_make_request` builds: `url = f"{self.base_url}{endpoint}"`
plus the extra keyword arguments. -/
def mkRequest (c : AgenticSeekClient) (method endpoint : String)
    (jsonBody : Option Json) (timeout : Option Nat) : HttpRequest :=
  { method := method, url := c.base_url ++ endpoint, jsonBody := jsonBody, timeout := timeout }

/-- Message `str(e)` of the `HTTPError` raised by `raise_for_status`:
`"{code} Client Error: {reason} for url: {url}"` for 4xx and
`"{code} Server Error: {reason} for url: {url}"` for 5xx. -/
def httpErrorString (r : HttpResponse) (url : String) : String :=
  if r.status_code < 500 then
    toString r.status_code ++ " Client Error: " ++ r.reason ++ " for url: " ++ url
  else
    toString r.status_code ++ " Server Error: " ++ r.reason ++ " for url: " ++ url

/-- Message `str(e)` of the `JSONDecodeError` raised by `response.json()`
on a non-JSON body. -/
def jsonDecodeErrorString : String :=
  "Expecting value: line 1 column 1 (char 0)"

/-- Method `_make_request`: issue the request; on a delivered
response call `raise_for_status` (raises for status in `[400, 600)`,
caught and turned into `{"error": str(e), "status_code": code}`), then
`response.json()` (a decode failure is a `RequestException`, caught and
turned into `{"error": str(e)}`); a transport failure is likewise caught
and turned into `{"error": str(e)}`.  The event trace records the single
HTTP call made. -/
def _make_request (c : AgenticSeekClient) (t : Transport) (method endpoint : String)
    (jsonBody : Option Json) (timeout : Option Nat) : Json × List Event :=
  let req := mkRequest c method endpoint jsonBody timeout
  let res :=
    match t req with
    | TransportResult.response r =>
      if 400 ≤ r.status_code ∧ r.status_code < 600 then
        Json.obj [("error", Json.str (httpErrorString r req.url)),
                  ("status_code", Json.num (r.status_code : Int))]
      else
        match r.jsonResult with
        | some j => j
        | none => Json.obj [("error", Json.str jsonDecodeErrorString)]
    | TransportResult.connectionError msg => Json.obj [("error", Json.str msg)]
  (res, [Event.httpCall req])

/-- Endpoint method `health_check`: GET `/health`. -/
def health_check (c : AgenticSeekClient) (t : Transport) : Json × List Event :=
  _make_request c t "GET" "/health" none none

/-- Endpoint method `get_status`: GET `/is_active`. -/
def get_status (c : AgenticSeekClient) (t : Transport) : Json × List Event :=
  _make_request c t "GET" "/is_active" none none

/-- Endpoint method `stop_agent`: GET `/stop`. -/
def stop_agent (c : AgenticSeekClient) (t : Transport) : Json × List Event :=
  _make_request c t "GET" "/stop" none none

/-- Endpoint method `get_latest_answer`: GET `/latest_answer`. -/
def get_latest_answer (c : AgenticSeekClient) (t : Transport) : Json × List Event :=
  _make_request c t "GET" "/latest_answer" none none

/-- The request issued by `get_screenshot`:
`self.session.get(f"{self.base_url}/screenshot")`. -/
def screenshotRequest (c : AgenticSeekClient) : HttpRequest :=
  { method := "GET", url := c.base_url ++ "/screenshot", jsonBody := none, timeout := none }

/-- Method `get_screenshot(save_path)`: GET `/screenshot`; on a 4xx/5xx status or a
transport failure the `RequestException` is caught, a failure message is
printed and `None` is returned; otherwise the guard `if save_path:` is a
Python truthiness test — `None` and the empty string are falsy — so only a
non-empty save path makes the raw bytes be written to it (inside
`with open(...)`, so the write completes and the handle is closed before
returning) with a confirmation printed; the raw bytes are returned either
way. -/
def get_screenshot (c : AgenticSeekClient) (t : Transport) (save_path : Option String) :
    Option (List Nat) × List Event :=
  let req := screenshotRequest c
  match t req with
  | TransportResult.response r =>
    if 400 ≤ r.status_code ∧ r.status_code < 600 then
      (none, [Event.httpCall req,
              Event.printed ("Failed to get screenshot: " ++ httpErrorString r req.url)])
    else
      match save_path with
      | some p =>
        if p == "" then (some r.content, [Event.httpCall req])
        else
          (some r.content,
           [Event.httpCall req, Event.wroteFile p r.content,
            Event.printed ("Screenshot saved to: " ++ p)])
      | none => (some r.content, [Event.httpCall req])
  | TransportResult.connectionError msg =>
    (none, [Event.httpCall req, Event.printed ("Failed to get screenshot: " ++ msg)])

/-- Method `query(text, timeout)`: POST `/query` with JSON body
`{"query": text}` and the given timeout. -/
def query (c : AgenticSeekClient) (t : Transport) (text : String) (timeout : Nat) :
    Json × List Event :=
  _make_request c t "POST" "/query" (some (Json.obj [("query", Json.str text)])) (some timeout)

/-- Final outcome of `wait_for_completion`. -/
inductive WaitResult where
  | done : Json → WaitResult
  | timedOut : WaitResult
  | pyError : String → WaitResult
  | outOfFuel : WaitResult

/-- One iteration structure of the `while time.time() - start_time < timeout`
loop of `wait_for_completion`, at poll index `k` (so elapsed time is
`k * poll_interval`: `get_status` is instantaneous in the model and each
`time.sleep(poll_interval)` advances the clock by `poll_interval`).  The
transport may change between polls (`ts k` serves poll `k`).  `fuel` bounds
the recursion depth of the embedding only; `wait_for_completion` supplies
enough fuel that `outOfFuel` is unreachable whenever `poll_interval > 0`.
A `get_status` result that is not a dict makes `status.get("is_active",
True)` raise `AttributeError`, modelled by `pyError`. -/
def wait_go (c : AgenticSeekClient) (ts : ℕ → Transport) (timeout poll_interval : ℚ) :
    ℕ → ℕ → WaitResult × List Event
  | _, 0 => (WaitResult.outOfFuel, [])
  | k, fuel + 1 =>
    if (k : ℚ) * poll_interval < timeout then
      match (get_status c (ts k)).1 with
      | Json.obj kvs =>
        if (dictGet kvs "is_active" (Json.bool true)).truthy = false then
          (WaitResult.done (get_latest_answer c (ts k)).1,
           (get_status c (ts k)).2 ++ (get_latest_answer c (ts k)).2)
        else
          ((wait_go c ts timeout poll_interval (k + 1) fuel).1,
           (get_status c (ts k)).2 ++ [Event.sleepFor poll_interval] ++
             (wait_go c ts timeout poll_interval (k + 1) fuel).2)
      | _ => (WaitResult.pyError "AttributeError: object has no attribute get",
              (get_status c (ts k)).2)
    else (WaitResult.timedOut, [])

/-- Method `wait_for_completion(timeout, poll_interval)`: poll `get_status` every
`poll_interval` seconds; as soon as `status.get("is_active", True)` is falsy
return `get_latest_answer()`, and once `timeout` seconds have elapsed return
`None` (`WaitResult.timedOut`).  The fuel `⌈timeout / poll_interval⌉ + 1`
covers every poll index `k` with `k * poll_interval < timeout`. -/
def wait_for_completion (c : AgenticSeekClient) (ts : ℕ → Transport)
    (timeout poll_interval : ℚ) : WaitResult × List Event :=
  wait_go c ts timeout poll_interval 0 (Nat.ceil (timeout / poll_interval) + 1)

/-- Trace of a run of the polling loop that sees `n` busy polls starting at
poll index `j` and then an idle poll: each `get_status` call is followed by
a `time.sleep(poll_interval)`, and the final (idle) poll is followed by the
`get_latest_answer` call with no sleep after it. -/
def busyTrail (c : AgenticSeekClient) (ts : ℕ → Transport) (poll_interval : ℚ) :
    ℕ → ℕ → List Event
  | 0, k => (get_status c (ts k)).2 ++ (get_latest_answer c (ts k)).2
  | n + 1, j =>
    (get_status c (ts j)).2 ++ [Event.sleepFor poll_interval] ++
      busyTrail c ts poll_interval n (j + 1)

/-- Function `print_response(data, title)`: pretty-print a JSON document under a
title banner.  The exact `json.dumps` rendering is abstracted: the event
records the title and the document. -/
def print_response (data : Json) (title : String) : List Event :=
  [Event.printedJson title data]

/-- Events of `demo_interactive` after the health check, when the health
envelope is a dict `kvs`: abort with a message when `health.get("error")`
is truthy, otherwise run status → query → latest_answer → screenshot.
Banner/informational prints that carry no data are omitted from the trace. -/
def demo_rest_events (c : AgenticSeekClient) (t : Transport)
    (kvs : List (String × Json)) : List Event :=
  (health_check c t).2 ++ print_response (health_check c t).1 "Health Check" ++
  (if (dictGet kvs "error" Json.null).truthy then
    [Event.printed "Error: Could not connect to the API. Make sure the backend is running."]
  else
    (get_status c t).2 ++ print_response (get_status c t).1 "Agent Status" ++
    (query c t "Hello, how are you?" 300).2 ++
      print_response (query c t "Hello, how are you?" 300).1 "Query Result" ++
    (get_latest_answer c t).2 ++
      print_response (get_latest_answer c t).1 "Latest Answer" ++
    (get_screenshot c t none).2 ++
    (match (get_screenshot c t none).1 with
     | some content =>
       if content.isEmpty then [Event.printed "No screenshot available"]
       else [Event.printed ("Screenshot available (" ++ toString content.length ++ " bytes)")]
     | none => [Event.printed "No screenshot available"]))

/-- Function `demo_interactive`: health check, print it, abort early if the envelope
has a truthy `error` field, otherwise status → query → latest_answer →
screenshot.  The function always returns normally (`none` in the first
component); when the health value is not a dict, `health.get("error")`
raises an uncaught `AttributeError`, reported in the first component. -/
def demo_interactive (c : AgenticSeekClient) (t : Transport) :
    Option String × List Event :=
  match (health_check c t).1 with
  | Json.obj kvs => (none, demo_rest_events c t kvs)
  | _ => (some "AttributeError: object has no attribute get",
          (health_check c t).2 ++ print_response (health_check c t).1 "Health Check")

/-- How the process ends: `exits code` for a normal return or `sys.exit`,
`uncaught msg` when a Python exception escapes `main`. -/
inductive CliResult where
  | exits : Nat → List Event → CliResult
  | uncaught : String → List Event → CliResult

/-- List of allowed commands: the choices of the positional argument. -/
def cliChoices : List String :=
  ["demo", "health", "query", "status", "screenshot", "stop", "history"]

/-- The base URL `main` hands to `AgenticSeekClient`: the `--url` flag when
given, else the argparse default `"http://localhost:7777"`.  The process
environment is an explicit parameter so the claim about
`AGENTIC_SEEK_URL` can be stated: the source never consults it (there is
no `os.environ` access anywhere), even though the argparse epilog
documents `AGENTIC_SEEK_URL` as configuring the base URL. -/
def resolveBaseUrl (cliUrl : Option String) (_env : String → Option String) : String :=
  match cliUrl with
  | some u => u
  | none => "http://localhost:7777"

/-- Function `main` after argument parsing: build the client from the URL and
dispatch on the command.  `query` with no positional arguments prints an
error plus usage and calls `sys.exit(1)`; every other branch falls off the
end of `main` (process exit code 0), except that a crash inside
`demo_interactive` escapes as an uncaught exception. -/
def mainRun (command : String) (args : List String) (url : String) (t : Transport) :
    CliResult :=
  let client := AgenticSeekClient.make url
  if command == "demo" then
    match demo_interactive client t with
    | (some msg, evs) => CliResult.uncaught msg evs
    | (none, evs) => CliResult.exits 0 evs
  else if command == "health" then
    CliResult.exits 0
      ((health_check client t).2 ++ print_response (health_check client t).1 "Response")
  else if command == "query" then
    if args.isEmpty then
      CliResult.exits 1
        [Event.printed "Error: Query requires text argument",
         Event.printed "Usage: python tutorial_poc.py query <text>"]
    else
      CliResult.exits 0
        ((query client t (String.intercalate " " args) 300).2 ++
         print_response (query client t (String.intercalate " " args) 300).1 "Response")
  else if command == "status" then
    CliResult.exits 0
      ((get_status client t).2 ++ print_response (get_status client t).1 "Response")
  else if command == "screenshot" then
    CliResult.exits 0 (get_screenshot client t args.head?).2
  else if command == "stop" then
    CliResult.exits 0
      ((stop_agent client t).2 ++ print_response (stop_agent client t).1 "Response")
  else if command == "history" then
    CliResult.exits 0
      ((get_latest_answer client t).2 ++
       print_response (get_latest_answer client t).1 "Response")
  else
    CliResult.exits 0 []

/-- Whether a string ends in `'/'`. -/
def hasTrailingSlash (s : String) : Bool :=
  match s.data.getLast? with
  | some c => c == '/'
  | none => false

/-- A client built on the default base URL, used in concrete witnesses. -/
def sampleClient : AgenticSeekClient := AgenticSeekClient.make "http://localhost:7777"

/-- A simulated plain 404 response with a non-JSON body. -/
def notFoundResponse : HttpResponse :=
  { status_code := 404, reason := "Not Found", content := [], jsonResult := none }

/-- A simulated 304 Not Modified response carrying a JSON object body.  Its
status code is not in the 2xx range, yet `raise_for_status` does not raise
on it (it only raises for 4xx/5xx). -/
def notModifiedResponse : HttpResponse :=
  { status_code := 304, reason := "Not Modified", content := [1, 2, 3],
    jsonResult := some (Json.obj [("ok", Json.bool true)]) }

/-- A simulated network whose every poll fails at transport level, so that
each `get_status` yields the error envelope, which lacks `is_active`. -/
def refusedTransports : ℕ → Transport :=
  fun _ _ => TransportResult.connectionError "Connection refused"

/-- A simulated network that always reports the agent as idle. -/
def idleTransport : Transport := fun _ =>
  TransportResult.response
    { status_code := 200, reason := "OK", content := [],
      jsonResult := some (Json.obj [("is_active", Json.bool false)]) }

/-- A simulated network that always reports the agent as busy. -/
def busyTransport : Transport := fun _ =>
  TransportResult.response
    { status_code := 200, reason := "OK", content := [],
      jsonResult := some (Json.obj [("is_active", Json.bool true)]) }

/-- A poll-indexed network: busy on the first poll, idle afterwards. -/
def busyThenIdleTs : ℕ → Transport :=
  fun k => if k == 0 then busyTransport else idleTransport

/-- Helper: the head of the suffix left by `dropWhile p` never satisfies
`p`. -/
theorem head?_dropWhile_not {α : Type} (p : α → Bool) :
    ∀ (l : List α) (a : α), (l.dropWhile p).head? = some a → p a = false := by
  intro l
  induction l with
  | nil => intro a h; simp [List.dropWhile] at h
  | cons x xs ih =>
    intro a h
    cases hx : p x with
    | true =>
      rw [List.dropWhile_cons, hx] at h
      exact ih a (by simpa using h)
    | false =>
      rw [List.dropWhile_cons, hx] at h
      simp only [Bool.false_eq_true, if_false, List.head?_cons, Option.some.injEq] at h
      rw [← h]
      exact hx

/-- C9: every base URL stored by the constructor is free of trailing
slashes.  Operations never rebuild or rewrite the client record in the
embedding (mirroring the source, where no method assigns to
`self.base_url`), so the invariant is preserved across every operation. -/
theorem c9_base_url_no_trailing_slash (s : String) :
    hasTrailingSlash (AgenticSeekClient.make s).base_url = false := by
  have hdata : (AgenticSeekClient.make s).base_url.data
      = (s.data.reverse.dropWhile (fun c => c == '/')).reverse := rfl
  unfold hasTrailingSlash
  rw [hdata, List.getLast?_reverse]
  cases h : (s.data.reverse.dropWhile (fun c => c == '/')).head? with
  | none => rfl
  | some c =>
    simpa using head?_dropWhile_not (fun c => c == '/') s.data.reverse c h

/-- C5: a simulated 200 response whose body parses to the JSON document `B`
makes every JSON-envelope operation return `B` unchanged. -/
theorem c5_success_body_passthrough (c : AgenticSeekClient) (rsn : String)
    (content : List Nat) (B : Json) (text : String) (tmo : Nat) :
    (health_check c (fun _ => TransportResult.response
        { status_code := 200, reason := rsn, content := content, jsonResult := some B })).1
      = B ∧
    (get_status c (fun _ => TransportResult.response
        { status_code := 200, reason := rsn, content := content, jsonResult := some B })).1
      = B ∧
    (stop_agent c (fun _ => TransportResult.response
        { status_code := 200, reason := rsn, content := content, jsonResult := some B })).1
      = B ∧
    (get_latest_answer c (fun _ => TransportResult.response
        { status_code := 200, reason := rsn, content := content, jsonResult := some B })).1
      = B ∧
    (query c (fun _ => TransportResult.response
        { status_code := 200, reason := rsn, content := content, jsonResult := some B })
        text tmo).1
      = B := by
  refine ⟨?_, ?_, ?_, ?_, ?_⟩ <;>
    simp [health_check, get_status, stop_agent, get_latest_answer, query, _make_request]

/-- C4: `query` issues exactly one HTTP call, a POST to `/query` whose JSON
body is exactly the one-key object mapping "query" to the text; in
particular the query "2+2" sends exactly the body mapping "query" to
"2+2". -/
theorem c4_query_post_body (c : AgenticSeekClient) (t : Transport) (text : String)
    (tmo : Nat) :
    (query c t text tmo).2
      = [Event.httpCall
          { method := "POST", url := c.base_url ++ "/query",
            jsonBody := some (Json.obj [("query", Json.str text)]),
            timeout := some tmo }] ∧
    (query (AgenticSeekClient.make "http://localhost:7777") t "2+2" 300).2
      = [Event.httpCall
          { method := "POST", url := "http://localhost:7777/query",
            jsonBody := some (Json.obj [("query", Json.str "2+2")]),
            timeout := some 300 }] :=
  ⟨rfl, rfl⟩

/-- C3 counterexample: `get_screenshot` is a client operation, yet on a
transport-level failure it returns `None` (and writes nothing), not a
mapping containing an `error` key. -/
theorem c3_counterexample :
    (get_screenshot sampleClient
        (fun _ => TransportResult.connectionError "Connection refused") none).1
      = none ∧
    (get_screenshot sampleClient
        (fun _ => TransportResult.connectionError "Connection refused") none).2
      = [Event.httpCall (screenshotRequest sampleClient),
         Event.printed "Failed to get screenshot: Connection refused"] :=
  ⟨rfl, rfl⟩

/-- C3 (amended): on a simulated transport-level failure every
JSON-envelope operation returns exactly the one-key error envelope (no
other keys), `get_screenshot` returns `None`, and no operation lets the
transport exception escape (each is a total function into envelopes /
`Option`). -/
theorem c3_amended_transport_failure (c : AgenticSeekClient) (msg text : String)
    (tmo : Nat) (sp : Option String) :
    (health_check c (fun _ => TransportResult.connectionError msg)).1
      = Json.obj [("error", Json.str msg)] ∧
    (get_status c (fun _ => TransportResult.connectionError msg)).1
      = Json.obj [("error", Json.str msg)] ∧
    (stop_agent c (fun _ => TransportResult.connectionError msg)).1
      = Json.obj [("error", Json.str msg)] ∧
    (get_latest_answer c (fun _ => TransportResult.connectionError msg)).1
      = Json.obj [("error", Json.str msg)] ∧
    (query c (fun _ => TransportResult.connectionError msg) text tmo).1
      = Json.obj [("error", Json.str msg)] ∧
    (get_screenshot c (fun _ => TransportResult.connectionError msg) sp).1 = none :=
  ⟨rfl, rfl, rfl, rfl, rfl, rfl⟩

/-- C1 counterexample: a simulated 304 response (a non-2xx status) does not
produce an error envelope: `raise_for_status` only raises for 4xx/5xx, so
`health_check` returns the parsed body, which has no `error` key; moreover
`get_screenshot` on a 404 returns `None`, not a mapping with `error` and
`status_code` keys. -/
theorem c1_counterexample :
    (¬ (200 ≤ 304 ∧ 304 < 300)) ∧
    Json.hasKey
      (health_check sampleClient (fun _ => TransportResult.response notModifiedResponse)).1
      "error" = false ∧
    (get_screenshot sampleClient (fun _ => TransportResult.response notFoundResponse)
        none).1 = none :=
  ⟨by decide, rfl, rfl⟩

/-- C1 (amended): for every simulated response with a status code in
`[400, 600)` (4xx/5xx — the statuses `raise_for_status` raises on), each
JSON-envelope operation returns a mapping containing both `error` and
`status_code`, with `status_code` equal to the simulated code; under the
same responses `get_screenshot` returns `None` rather than a mapping. -/
theorem c1_amended_error_envelope (c : AgenticSeekClient) (r : HttpResponse)
    (h4 : 400 ≤ r.status_code) (h6 : r.status_code < 600)
    (text : String) (tmo : Nat) (sp : Option String) :
    (Json.hasKey (health_check c (fun _ => TransportResult.response r)).1 "error" = true ∧
     Json.getKey (health_check c (fun _ => TransportResult.response r)).1 "status_code"
       = some (Json.num (r.status_code : Int))) ∧
    (Json.hasKey (get_status c (fun _ => TransportResult.response r)).1 "error" = true ∧
     Json.getKey (get_status c (fun _ => TransportResult.response r)).1 "status_code"
       = some (Json.num (r.status_code : Int))) ∧
    (Json.hasKey (stop_agent c (fun _ => TransportResult.response r)).1 "error" = true ∧
     Json.getKey (stop_agent c (fun _ => TransportResult.response r)).1 "status_code"
       = some (Json.num (r.status_code : Int))) ∧
    (Json.hasKey (get_latest_answer c (fun _ => TransportResult.response r)).1 "error" = true ∧
     Json.getKey (get_latest_answer c (fun _ => TransportResult.response r)).1 "status_code"
       = some (Json.num (r.status_code : Int))) ∧
    (((query c (fun _ => TransportResult.response r) text tmo).1).hasKey "error" = true ∧
     ((query c (fun _ => TransportResult.response r) text tmo).1).getKey "status_code"
       = some (Json.num (r.status_code : Int))) ∧
    (get_screenshot c (fun _ => TransportResult.response r) sp).1 = none := by
  refine ⟨⟨?_, ?_⟩, ⟨?_, ?_⟩, ⟨?_, ?_⟩, ⟨?_, ?_⟩, ⟨?_, ?_⟩, ?_⟩ <;>
    simp [health_check, get_status, stop_agent, get_latest_answer, query, get_screenshot,
          _make_request, h4, h6, Json.hasKey, Json.getKey, List.find?]

/-- C1 witness: the amended statement evaluated on a concrete 404. -/
theorem c1_witness :
    Json.hasKey
      (health_check sampleClient (fun _ => TransportResult.response notFoundResponse)).1
      "error" = true ∧
    Json.getKey
      (health_check sampleClient (fun _ => TransportResult.response notFoundResponse)).1
      "status_code" = some (Json.num 404) ∧
    (get_screenshot sampleClient (fun _ => TransportResult.response notFoundResponse)
        none).1 = none :=
  ⟨(c1_amended_error_envelope sampleClient notFoundResponse (by decide) (by decide)
      "hi" 300 none).1.1,
   (c1_amended_error_envelope sampleClient notFoundResponse (by decide) (by decide)
      "hi" 300 none).1.2,
   (c1_amended_error_envelope sampleClient notFoundResponse (by decide) (by decide)
      "hi" 300 none).2.2.2.2.2⟩

/-- C6: the base URL defaults to `http://localhost:7777` and is
configurable via the `--url` flag, but the environment is never consulted:
even with `AGENTIC_SEEK_URL` set, the default is used.  This contradicts
the documentation the program itself prints (its argparse epilog documents
`AGENTIC_SEEK_URL` as configuring the base URL). -/
theorem c6_env_var_ignored :
    resolveBaseUrl (some "http://cli.example:1234") (fun _ => none)
      = "http://cli.example:1234" ∧
    resolveBaseUrl none (fun _ => none) = "http://localhost:7777" ∧
    resolveBaseUrl none
        (fun k => if k == "AGENTIC_SEEK_URL" then some "http://envhost:9999" else none)
      = "http://localhost:7777" ∧
    resolveBaseUrl none
        (fun k => if k == "AGENTIC_SEEK_URL" then some "http://envhost:9999" else none)
      ≠ "http://envhost:9999" := by
  refine ⟨rfl, rfl, rfl, ?_⟩
  decide

/-- Helper: when every reached poll reports the agent as busy, the loop
runs until its guard fails and returns the timeout result, provided the
fuel covers the remaining iterations. -/
theorem wait_go_busy (c : AgenticSeekClient) (ts : ℕ → Transport)
    (timeout poll_interval : ℚ)
    (hb : ∀ k : ℕ, (k : ℚ) * poll_interval < timeout →
      ∃ kvs, (get_status c (ts k)).1 = Json.obj kvs ∧
        (dictGet kvs "is_active" (Json.bool true)).truthy = true) :
    ∀ fuel k : ℕ, timeout ≤ ((k + fuel : ℕ) : ℚ) * poll_interval →
      (wait_go c ts timeout poll_interval k (fuel + 1)).1 = WaitResult.timedOut := by
  intro fuel
  induction fuel with
  | zero =>
    intro k hk
    have hng : ¬ ((k : ℚ) * poll_interval < timeout) := by
      push_cast at hk
      simpa using not_lt.2 hk
    simp [wait_go, hng]
  | succ f ih =>
    intro k hk
    by_cases hg : (k : ℚ) * poll_interval < timeout
    · obtain ⟨kvs, hkvs, htr⟩ := hb k hg
      rw [wait_go]
      simp only [hg, if_true, hkvs, htr]
      rw [if_neg (by simp)]
      exact ih (k + 1) (by push_cast at hk ⊢; linarith)
    · simp [wait_go, hg]

/-- Helper: when polls `j, ..., k-1` are busy and poll `k` is idle, the
loop starting at poll `j` with enough fuel returns `get_latest_answer`
called at poll `k`, with the trace of one `get_status` per poll and a
sleep between consecutive polls. -/
theorem wait_go_idle_at (c : AgenticSeekClient) (ts : ℕ → Transport)
    (timeout poll_interval : ℚ) (hpoll : 0 ≤ poll_interval) (k : ℕ)
    (hk : (k : ℚ) * poll_interval < timeout)
    (hbusy : ∀ i : ℕ, i < k → ∃ kvs, (get_status c (ts i)).1 = Json.obj kvs ∧
      (dictGet kvs "is_active" (Json.bool true)).truthy = true)
    (kvs : List (String × Json))
    (hobj : (get_status c (ts k)).1 = Json.obj kvs)
    (hidle : (dictGet kvs "is_active" (Json.bool true)).truthy = false) :
    ∀ fuel n j : ℕ, j + n = k → k + 1 - j ≤ fuel →
      wait_go c ts timeout poll_interval j fuel
        = (WaitResult.done (get_latest_answer c (ts k)).1,
           busyTrail c ts poll_interval n j) := by
  intro fuel
  induction fuel with
  | zero =>
    intro n j hj hf
    omega
  | succ f ih =>
    intro n j hj hf
    have hjk : j ≤ k := by omega
    have hg : (j : ℚ) * poll_interval < timeout := by
      have hcast : (j : ℚ) ≤ (k : ℚ) := by exact_mod_cast hjk
      exact lt_of_le_of_lt (mul_le_mul_of_nonneg_right hcast hpoll) hk
    cases n with
    | zero =>
      have hjk0 : j = k := by omega
      subst hjk0
      rw [wait_go]
      simp only [hg, if_true, hobj, hidle, busyTrail]
    | succ m =>
      have hjlt : j < k := by omega
      obtain ⟨kvs2, hkvs2, htr2⟩ := hbusy j hjlt
      rw [wait_go]
      simp only [hg, if_true, hkvs2, htr2]
      rw [if_neg (by simp)]
      rw [ih m (j + 1) (by omega) (by omega)]
      rfl

/-- C2: `wait_for_completion` polls `get_status` with a sleep of
`poll_interval` between polls.  If the first poll reports the busy flag
false it returns exactly the value of `get_latest_answer()` called at that
point; in general, when polls `0, ..., k-1` report busy and poll `k`
(reached within the timeout) reports the busy flag false, it returns
`get_latest_answer()` called at poll `k` and its trace is exactly one
`get_status` call per poll with a sleep of `poll_interval` between
consecutive polls, ending with the `get_latest_answer` call; if every
reached poll reports busy, the loop runs until `timeout` seconds have
elapsed and returns the timeout result (`None`). -/
theorem c2_wait_for_completion (c : AgenticSeekClient) (ts : ℕ → Transport)
    (timeout poll_interval : ℚ) (hto : 0 < timeout) :
    (∀ kvs, (get_status c (ts 0)).1 = Json.obj kvs →
      (dictGet kvs "is_active" (Json.bool true)).truthy = false →
      (wait_for_completion c ts timeout poll_interval).1
        = WaitResult.done (get_latest_answer c (ts 0)).1) ∧
    (0 < poll_interval →
      ∀ k : ℕ, (k : ℚ) * poll_interval < timeout →
      (∀ i : ℕ, i < k → ∃ kvs, (get_status c (ts i)).1 = Json.obj kvs ∧
        (dictGet kvs "is_active" (Json.bool true)).truthy = true) →
      ∀ kvs, (get_status c (ts k)).1 = Json.obj kvs →
      (dictGet kvs "is_active" (Json.bool true)).truthy = false →
      wait_for_completion c ts timeout poll_interval
        = (WaitResult.done (get_latest_answer c (ts k)).1,
           busyTrail c ts poll_interval k 0)) ∧
    (0 < poll_interval →
      (∀ k : ℕ, (k : ℚ) * poll_interval < timeout →
        ∃ kvs, (get_status c (ts k)).1 = Json.obj kvs ∧
          (dictGet kvs "is_active" (Json.bool true)).truthy = true) →
      (wait_for_completion c ts timeout poll_interval).1 = WaitResult.timedOut) := by
  refine ⟨?_, ?_, ?_⟩
  · intro kvs hkvs hidle
    unfold wait_for_completion
    rw [wait_go]
    have hg : ((0 : ℕ) : ℚ) * poll_interval < timeout := by simpa using hto
    simp only [hg, if_true, hkvs, hidle]
  · intro hpoll k hk hbusy kvs hobj hidle
    have hdiv : (k : ℚ) < timeout / poll_interval := (lt_div_iff₀ hpoll).2 hk
    have hle : timeout / poll_interval ≤ (Nat.ceil (timeout / poll_interval) : ℚ) :=
      Nat.le_ceil _
    have hkN : k < Nat.ceil (timeout / poll_interval) := by
      exact_mod_cast lt_of_lt_of_le hdiv hle
    unfold wait_for_completion
    exact wait_go_idle_at c ts timeout poll_interval (le_of_lt hpoll) k hk hbusy kvs
      hobj hidle (Nat.ceil (timeout / poll_interval) + 1) k 0 (by omega) (by omega)
  · intro hpoll hb
    unfold wait_for_completion
    apply wait_go_busy c ts timeout poll_interval hb
    have h1 : timeout / poll_interval ≤ (Nat.ceil (timeout / poll_interval) : ℚ) :=
      Nat.le_ceil _
    have h2 := mul_le_mul_of_nonneg_right h1 (le_of_lt hpoll)
    rw [div_mul_cancel₀ _ (ne_of_gt hpoll)] at h2
    push_cast
    simpa using h2

/-- C2 witness: a status source busy on the first poll and idle on the
second, with timeout 5 and poll interval 1: the loop returns exactly the
latest answer fetched at the second poll, and its trace is the first
status call, a sleep of one second, the second status call and the
latest-answer call. -/
theorem c2_witness :
    wait_for_completion sampleClient busyThenIdleTs 5 1
      = (WaitResult.done (Json.obj [("is_active", Json.bool false)]),
         [Event.httpCall
            { method := "GET", url := "http://localhost:7777/is_active",
              jsonBody := none, timeout := none },
          Event.sleepFor 1,
          Event.httpCall
            { method := "GET", url := "http://localhost:7777/is_active",
              jsonBody := none, timeout := none },
          Event.httpCall
            { method := "GET", url := "http://localhost:7777/latest_answer",
              jsonBody := none, timeout := none }]) :=
  (c2_wait_for_completion sampleClient busyThenIdleTs 5 1 (by decide)).2.1
    (by decide) 1 (by norm_num)
    (fun i hi => by
      have hi0 : i = 0 := by omega
      subst hi0
      exact ⟨[("is_active", Json.bool true)], rfl, rfl⟩)
    [("is_active", Json.bool false)] rfl rfl

/-- C10: inside the polling loop, a status result that is a dict without
the `is_active` key (such as the error envelope produced by a transport or
HTTP failure) is treated as busy: the iteration proceeds to the next poll
instead of returning.  A present `is_active` value ends the loop early
exactly when it is falsy. -/
theorem c10_missing_is_active_keeps_polling (c : AgenticSeekClient)
    (ts : ℕ → Transport) (timeout poll_interval : ℚ) (k fuel : ℕ)
    (kvs : List (String × Json))
    (hg : (k : ℚ) * poll_interval < timeout)
    (hobj : (get_status c (ts k)).1 = Json.obj kvs) :
    (kvs.find? (fun p => p.1 == "is_active") = none →
      (wait_go c ts timeout poll_interval k (fuel + 1)).1
        = (wait_go c ts timeout poll_interval (k + 1) fuel).1) ∧
    ((dictGet kvs "is_active" (Json.bool true)).truthy = true →
      (wait_go c ts timeout poll_interval k (fuel + 1)).1
        = (wait_go c ts timeout poll_interval (k + 1) fuel).1) ∧
    ((dictGet kvs "is_active" (Json.bool true)).truthy = false →
      (wait_go c ts timeout poll_interval k (fuel + 1)).1
        = WaitResult.done (get_latest_answer c (ts k)).1) := by
  refine ⟨?_, ?_, ?_⟩
  · intro hfind
    have htr : (dictGet kvs "is_active" (Json.bool true)).truthy = true := by
      simp [dictGet, hfind, Json.truthy]
    rw [wait_go]
    simp only [hg, if_true, hobj, htr]
    rw [if_neg (by simp)]
  · intro htr
    rw [wait_go]
    simp only [hg, if_true, hobj, htr]
    rw [if_neg (by simp)]
  · intro htr
    rw [wait_go]
    simp only [hg, if_true, hobj, htr]

/-- C10 witness: polls that fail at transport level produce the error
envelope, which lacks `is_active`; the loop keeps polling. -/
theorem c10_witness :
    (wait_go sampleClient refusedTransports 5 1 0 4).1
      = (wait_go sampleClient refusedTransports 5 1 1 3).1 :=
  (c10_missing_is_active_keeps_polling sampleClient refusedTransports 5 1 0 3
    [("error", Json.str "Connection refused")] (by norm_num) rfl).1 rfl

/-- Helper: whatever the transport does, `_make_request` returns a dict
whenever every JSON body served by the transport is a dict (error
envelopes are dicts by construction). -/
theorem make_request_isObj (c : AgenticSeekClient) (t : Transport)
    (method endpoint : String) (jsonBody : Option Json) (tmo : Option Nat)
    (hobj : ∀ req r j, t req = TransportResult.response r → r.jsonResult = some j →
      j.isObj = true) :
    ((_make_request c t method endpoint jsonBody tmo).1).isObj = true := by
  unfold _make_request
  cases h : t (mkRequest c method endpoint jsonBody tmo) with
  | response r =>
    by_cases h4 : 400 ≤ r.status_code ∧ r.status_code < 600
    · simp [h, h4, Json.isObj]
    · cases hj : r.jsonResult with
      | some j => simpa [h, h4, hj] using hobj _ _ _ h hj
      | none => simp [h, h4, hj, Json.isObj]
  | connectionError msg => simp [h, Json.isObj]

/-- Helper: a JSON value with `isObj` set is an object. -/
theorem isObj_iff (j : Json) : j.isObj = true ↔ ∃ kvs, j = Json.obj kvs := by
  cases j <;> simp [Json.isObj]

/-- C7: the `query` command without text prints the error and usage lines,
makes no HTTP call and exits with code 1; every other command from the
argparse choices exits with code 0 (for `demo` this is proved under the
assumption that JSON bodies served by the transport are objects — a 2xx
body that is valid JSON but not an object would make `health.get` raise an
uncaught `AttributeError` inside the demo instead). -/
theorem c7_cli_exit_codes (command : String) (args : List String) (url : String)
    (t : Transport) (hcmd : command ∈ cliChoices) :
    (command = "query" → args = [] →
      mainRun command args url t
        = CliResult.exits 1
            [Event.printed "Error: Query requires text argument",
             Event.printed "Usage: python tutorial_poc.py query <text>"] ∧
      ∀ req : HttpRequest, Event.httpCall req ∉
        ([Event.printed "Error: Query requires text argument",
          Event.printed "Usage: python tutorial_poc.py query <text>"] : List Event)) ∧
    ((∀ req r j, t req = TransportResult.response r → r.jsonResult = some j →
        j.isObj = true) →
      ¬ (command = "query" ∧ args = []) →
      ∃ evs, mainRun command args url t = CliResult.exits 0 evs) := by
  constructor
  · rintro rfl rfl
    refine ⟨rfl, ?_⟩
    intro req h
    simp at h
  · intro hobj hne
    simp only [cliChoices, List.mem_cons, List.not_mem_nil, or_false] at hcmd
    rcases hcmd with rfl | rfl | rfl | rfl | rfl | rfl | rfl
    · obtain ⟨kvs, hkvs⟩ := (isObj_iff _).1
        (make_request_isObj (AgenticSeekClient.make url) t "GET" "/health" none none hobj)
    
      exact ⟨demo_rest_events (AgenticSeekClient.make url) t kvs,
        by simp [mainRun, demo_interactive, health_check, hkvs]⟩
    · exact ⟨_, rfl⟩
    · cases args with
      | nil => exact absurd ⟨rfl, rfl⟩ hne
      | cons a as => exact ⟨_, rfl⟩
    · exact ⟨_, rfl⟩
    · exact ⟨_, rfl⟩
    · exact ⟨_, rfl⟩
    · exact ⟨_, rfl⟩

/-- C7 witness: a concrete bad invocation and a concrete good one. -/
theorem c7_witness :
    mainRun "query" [] "http://localhost:7777"
        (fun _ => TransportResult.connectionError "down")
      = CliResult.exits 1
          [Event.printed "Error: Query requires text argument",
           Event.printed "Usage: python tutorial_poc.py query <text>"] ∧
    ∃ evs, mainRun "health" [] "http://localhost:7777"
        (fun _ => TransportResult.connectionError "down")
      = CliResult.exits 0 evs :=
  ⟨((c7_cli_exit_codes "query" [] "http://localhost:7777"
      (fun _ => TransportResult.connectionError "down") (by simp [cliChoices])).1
      rfl rfl).1,
   (c7_cli_exit_codes "health" [] "http://localhost:7777"
      (fun _ => TransportResult.connectionError "down") (by simp [cliChoices])).2
      (fun req r j h _ => by simp at h) (by simp)⟩

/-- C8 counterexample: a simulated 304 response (non-2xx) does not make
`get_screenshot` return nothing: `raise_for_status` passes and the raw
bytes are returned. -/
theorem c8_counterexample :
    (¬ (200 ≤ 304 ∧ 304 < 300)) ∧
    (get_screenshot sampleClient (fun _ => TransportResult.response notModifiedResponse)
        none).1 = some [1, 2, 3] :=
  ⟨by decide, rfl⟩

/-- C8 (amended): `get_screenshot` returns the raw response bytes on a 2xx
response — writing exactly those bytes to the save path (the write
completing before the call returns) when a truthy, i.e. non-empty, path is
given, and writing nothing when the path is absent or empty — and returns
nothing and writes nothing on a transport failure or a 4xx/5xx status. -/
theorem c8_amended_screenshot (c : AgenticSeekClient) (t : Transport)
    (sp : Option String) :
    (∀ r, t (screenshotRequest c) = TransportResult.response r →
      200 ≤ r.status_code → r.status_code < 300 →
      (get_screenshot c t sp).1 = some r.content ∧
      (∀ p, sp = some p → p ≠ "" →
        (get_screenshot c t sp).2
          = [Event.httpCall (screenshotRequest c), Event.wroteFile p r.content,
             Event.printed ("Screenshot saved to: " ++ p)]) ∧
      (sp = none → (get_screenshot c t sp).2 = [Event.httpCall (screenshotRequest c)]) ∧
      (sp = some "" →
        (get_screenshot c t sp).2 = [Event.httpCall (screenshotRequest c)])) ∧
    (∀ r, t (screenshotRequest c) = TransportResult.response r →
      400 ≤ r.status_code → r.status_code < 600 →
      (get_screenshot c t sp).1 = none ∧
      ∀ p bs, Event.wroteFile p bs ∉ (get_screenshot c t sp).2) ∧
    (∀ msg, t (screenshotRequest c) = TransportResult.connectionError msg →
      (get_screenshot c t sp).1 = none ∧
      ∀ p bs, Event.wroteFile p bs ∉ (get_screenshot c t sp).2) := by
  refine ⟨?_, ?_, ?_⟩
  · intro r ht h2 h3
    have h4 : ¬ (400 ≤ r.status_code ∧ r.status_code < 600) := by omega
    refine ⟨?_, ?_, ?_, ?_⟩
    · cases sp with
      | none => simp [get_screenshot, ht, h4]
      | some p =>
        by_cases hp : p == ""
        · simp [get_screenshot, ht, h4, hp]
        · simp [get_screenshot, ht, h4, hp]
    · intro p hp hpe
      cases hp
      have hbp : (p == "") = false := beq_eq_false_iff_ne.mpr hpe
      simp [get_screenshot, ht, h4, hbp]
    · intro hp
      subst hp
      simp [get_screenshot, ht, h4]
    · intro hp
      subst hp
      simp [get_screenshot, ht, h4]
  · intro r ht h4 h6
    constructor
    · simp [get_screenshot, ht, h4, h6]
    · intro p bs hmem
      simp [get_screenshot, ht, h4, h6] at hmem
  · intro msg ht
    constructor
    · simp [get_screenshot, ht]
    · intro p bs hmem
      simp [get_screenshot, ht] at hmem

/-- C8 witness: a 200 screenshot with a non-empty save path returns the
bytes and records the write of exactly those bytes. -/
theorem c8_witness :
    (get_screenshot sampleClient
        (fun _ => TransportResult.response
          { status_code := 200, reason := "OK", content := [9, 9], jsonResult := none })
        (some "shot.png")).1 = some [9, 9] ∧
    (get_screenshot sampleClient
        (fun _ => TransportResult.response
          { status_code := 200, reason := "OK", content := [9, 9], jsonResult := none })
        (some "shot.png")).2
      = [Event.httpCall (screenshotRequest sampleClient),
         Event.wroteFile "shot.png" [9, 9],
         Event.printed "Screenshot saved to: shot.png"] :=
  have h := (c8_amended_screenshot sampleClient
    (fun _ => TransportResult.response
      { status_code := 200, reason := "OK", content := [9, 9], jsonResult := none })
    (some "shot.png")).1
    { status_code := 200, reason := "OK", content := [9, 9], jsonResult := none }
    rfl (by decide) (by decide)
  ⟨h.1, h.2.1 "shot.png" rfl (by decide)⟩
